import Mathlib

/-!
Verification of the lfs-warning pull-request check.

The source (src/src/index.ts) is a GitHub action that classifies the changed
files of a pull request into four buckets (oversized, misdeclared-LFS,
suspected-binary, pattern-flagged), posts a label and a comment when any
bucket is non-empty, and fails the check.  The file holds two near-identical
draft variants of the module; the second variant (the one that adds the
independent inclusion-pattern pass, lines 287-575) is the superset design the
specification adopts as canonical, and is the one embedded here.  The per-file
decision tree (lines 330-360) is identical in both variants.

External collaborators (the GitHub API, `git check-attr`, `grep`, micromatch)
are modelled as components of an `Env` record of pure functions; everything
the TypeScript computes from their answers is embedded directly.
-/

/-- A JavaScript number restricted to the values this program produces:
a non-negative integer or NaN.  `Number(...)` on a malformed string yields
NaN; every `>` comparison against NaN is false. -/
inductive JsNum where
  | num (n : Nat)
  | nan
deriving DecidableEq, Repr

/-- The value `getFileSizeLimitBytes` returns: the `kb`/`mb`/`gb` branches
return a number, the other two branches return a string (TypeScript union
`string | number`). -/
inductive JsValue where
  | num (v : JsNum)
  | str (s : String)
deriving DecidableEq, Repr

/-- Multiplication of a JS number by an integer constant (`Number(x) * 1024`
etc.); NaN is absorbing. -/
def JsNum.mulNat : JsNum → Nat → JsNum
  | JsNum.num n, k => JsNum.num (n * k)
  | JsNum.nan, _ => JsNum.nan

/-- The JS comparison `s > t` for a known number `s` and a threshold `t`:
false whenever the threshold is NaN. -/
def jsGt (s : Nat) : JsNum → Bool
  | JsNum.num n => decide (n < s)
  | JsNum.nan => false

/-- Fold a list of decimal digit characters into the integer they denote. -/
def decimalVal (cs : List Char) : Nat :=
  cs.foldl (fun acc c => acc * 10 + (c.toNat - 48)) 0

/-- Model of the JavaScript `Number(string)` conversion, restricted to the
inputs this program meets: the empty string converts to 0, a non-empty string
of decimal digits converts to the integer it denotes, and every other string
is treated as malformed and converts to NaN.  (Signs, fractions, exponents,
hex literals and surrounding whitespace are outside the inputs considered
here and are mapped to NaN by this model.) -/
def jsNumber (s : String) : JsNum :=
  if s.data = [] then JsNum.num 0
  else if s.data.all Char.isDigit then JsNum.num (decimalVal s.data)
  else JsNum.nan

/-- Numeric coercion `Number(fsl)` applied at the use sites of the parsed
threshold. -/
def toNumber : JsValue → JsNum
  | JsValue.num v => v
  | JsValue.str s => jsNumber s

/-- The JS test `lastTwoChars[1] === 'b'`: indexing past the end of the
string yields `undefined`, which is not `'b'`. -/
def secondCharIsB : List Char → Bool
  | [_, c] => c == 'b'
  | _ => false

/-- Embedding of `getFileSizeLimitBytes` (index.ts lines 433-449).
`fsl.slice(-2).toLowerCase()` is the last two characters lower-cased (the
whole string when it is shorter than two characters); the `kb`/`mb`/`gb`
branches return `Number(prefix)` times the unit, the `b` branch returns the
string with the last character stripped, and the fallback returns the input
string unchanged. -/
def getFileSizeLimitBytes (fsl : String) : JsValue :=
  let lastTwoChars := (fsl.data.drop (fsl.data.length - 2)).map Char.toLower
  if lastTwoChars = ['k', 'b'] then
    JsValue.num ((jsNumber (String.mk (fsl.data.take (fsl.data.length - 2)))).mulNat 1024)
  else if lastTwoChars = ['m', 'b'] then
    JsValue.num ((jsNumber (String.mk (fsl.data.take (fsl.data.length - 2)))).mulNat (1024 * 1024))
  else if lastTwoChars = ['g', 'b'] then
    JsValue.num ((jsNumber (String.mk (fsl.data.take (fsl.data.length - 2)))).mulNat (1024 * 1024 * 1024))
  else if secondCharIsB lastTwoChars then
    JsValue.str (String.mk (fsl.data.take (fsl.data.length - 1)))
  else
    JsValue.str fsl

/-- Is `pre` a prefix of `l`? (used to model JS `String.prototype.includes`). -/
def listPrefixEq : List Char → List Char → Bool
  | [], _ => true
  | _ :: _, [] => false
  | a :: as, b :: bs => a == b && listPrefixEq as bs

/-- Does `hay` contain `sub` as a contiguous run? -/
def listHasSub (sub : List Char) : List Char → Bool
  | [] => listPrefixEq sub []
  | c :: t => listPrefixEq sub (c :: t) || listHasSub sub t

/-- Model of JS `s.includes(pat)`: substring containment. -/
def strIncludes (s pat : String) : Bool :=
  listHasSub pat.data s.data

/-- The literal LFS pointer signature searched for in patch text
(index.ts line 342). -/
def lfsPointerSignature : String :=
  "version https://git-lfs.github.com/spec/v1"

/-- `Boolean(file.patch?.includes('version https://git-lfs.github.com/spec/v1'))`
(index.ts lines 341-343): an absent patch yields `undefined`, which
`Boolean` maps to false. -/
def patchContainsPointer : Option String → Bool
  | some p => strIncludes p lfsPointerSignature
  | none => false

/-- Outcome of `execFileP('grep', ['-IL', '.', filename])`: either the
process exits 0 with its stdout, or it fails with a non-zero exit code
(1 when grep judged the file text-only, 2 for path-missing / permission /
tool errors).  `execFileP` rejects on any non-zero exit, so both failure
kinds land in the same `catch` block of the source. -/
inductive GrepResult where
  | success (stdout : String)
  | failure (exitCode : Nat)
deriving DecidableEq, Repr

/-- A changed file as returned by `octokit.rest.pulls.listFiles`:
its path, the blob sha, and the optional unified-diff patch fragment. -/
structure PrFile where
  filename : String
  sha : String
  patch : Option String
deriving DecidableEq, Repr

/-- A changed file enriched with its blob size
(the element type of `prFilesWithBlobSize`, index.ts lines 506-511).
`fileblobsize = none` models a `null` blob size. -/
structure ChangedFile where
  filename : String
  filesha : String
  fileblobsize : Option Nat
  patch : Option String
deriving DecidableEq, Repr

/-- The external collaborators, as pure functions of their inputs:
`isMatch` is `micromatch.isMatch(path, patterns)`; `checkAttrLfs path` is
whether the stdout of `git check-attr filter path` contains `filter: lfs`;
`getBlobSize sha` is the `size` field of `octokit.rest.git.getBlob` (none
models `null`); `grep path` is the outcome of
`execFileP('grep', ['-IL', '.', path])`. -/
structure Env where
  isMatch : String → List String → Bool
  checkAttrLfs : String → Bool
  getBlobSize : String → Option Nat
  grep : String → GrepResult

/-- The enrichment step of `getPrFilesWithBlobSize` (index.ts lines 498-513):
pair each listed file with the size of its blob. -/
def enrichFile (env : Env) (f : PrFile) : ChangedFile :=
  { filename := f.filename
    filesha := f.sha
    fileblobsize := env.getBlobSize f.sha
    patch := f.patch }

/-- Embedding of `getPrFilesWithBlobSize` (index.ts lines 479-515): when the
exclusion pattern list is non-empty, drop every listed file whose path
matches it; then enrich each survivor with its blob size. -/
def getPrFilesWithBlobSize (env : Env) (exclusionPatterns : List String)
    (data : List PrFile) : List ChangedFile :=
  let files :=
    if exclusionPatterns.length > 0 then
      data.filter (fun f => !(env.isMatch f.filename exclusionPatterns))
    else data
  files.map (enrichFile env)

/-- Embedding of `getPrFilesMatchingInclusionPattern` (index.ts lines
517-536): when the inclusion pattern list is non-empty, keep exactly the
listed files whose path matches it; when it is empty, the source falls
through to the unfiltered file list. -/
def getPrFilesMatchingInclusionPattern (env : Env)
    (inclusionPatterns : List String) (data : List PrFile) : List PrFile :=
  if inclusionPatterns.length > 0 then
    data.filter (fun f => env.isMatch f.filename inclusionPatterns)
  else data

/-- The bucket (if any) the per-file decision tree selects for one file. -/
inductive Bucket where
  | oversized
  | misdeclaredLfs
  | suspectedBinary
  | pass
deriving DecidableEq, Repr

/-- Embedding of the body of the per-file loop (index.ts lines 330-360):
a file with a known blob size above `Number(fsl)` is oversized; otherwise,
if `git check-attr` reports the LFS filter, the file is misdeclared exactly
when its patch lacks the pointer signature; otherwise the grep probe runs,
a successful probe with non-empty stdout marks the file suspected-binary,
and every probe failure (any non-zero exit code) is caught and treated as
"not binary". -/
def classifyOne (env : Env) (fsl : JsValue) (f : ChangedFile) : Bucket :=
  if (match f.fileblobsize with
      | some s => jsGt s (toNumber fsl)
      | none => false) then
    Bucket.oversized
  else if env.checkAttrLfs f.filename then
    if patchContainsPointer f.patch then Bucket.pass else Bucket.misdeclaredLfs
  else
    match env.grep f.filename with
    | GrepResult.success out => if out.length > 0 then Bucket.suspectedBinary else Bucket.pass
    | GrepResult.failure _ => Bucket.pass

/-- Derived reading of the text probe: the probe ran successfully and its
stdout was non-empty (grep -IL printed the path, i.e. judged the file
binary).  Any probe failure reads as "not binary", mirroring the catch
block. -/
def grepJudgesBinary (env : Env) (filename : String) : Bool :=
  match env.grep filename with
  | GrepResult.success out => decide (out.length > 0)
  | GrepResult.failure _ => false

/-- The four accumulator lists of `run` (index.ts lines 326-329), in
declaration order. -/
structure ClassificationResult where
  largeFiles : List String
  accidentallyCheckedInLsfFiles : List String
  consideredBinaryFiles : List String
  inclusionPatternMatchingFiles : List String
deriving DecidableEq, Repr

/-- Embedding of the classification portion of `run` (index.ts lines
320-376).  The first loop appends each file's name to the single bucket
`classifyOne` selects, in iteration order, so each of the first three
buckets is the name list of the files the tree sends there.  `lsfFiles` is
then the concatenation of the first three buckets (lines 362-363), and the
second loop (lines 365-374) walks the inclusion-pattern file list, adding a
name when `git check-attr` does not report the LFS filter and the name is
not already in `lsfFiles`. -/
def classify (env : Env) (exclusionPatterns inclusionPatterns : List String)
    (fsl : JsValue) (data : List PrFile) : ClassificationResult :=
  let prFilesWithBlobSize := getPrFilesWithBlobSize env exclusionPatterns data
  let prFilesMatchingIncludePattern :=
    getPrFilesMatchingInclusionPattern env inclusionPatterns data
  let largeFiles :=
    (prFilesWithBlobSize.filter
      (fun f => decide (classifyOne env fsl f = Bucket.oversized))).map
      (fun f => f.filename)
  let accidentallyCheckedInLsfFiles :=
    (prFilesWithBlobSize.filter
      (fun f => decide (classifyOne env fsl f = Bucket.misdeclaredLfs))).map
      (fun f => f.filename)
  let consideredBinaryFiles :=
    (prFilesWithBlobSize.filter
      (fun f => decide (classifyOne env fsl f = Bucket.suspectedBinary))).map
      (fun f => f.filename)
  let lsfFiles := largeFiles ++ accidentallyCheckedInLsfFiles ++ consideredBinaryFiles
  let inclusionPatternMatchingFiles :=
    (prFilesMatchingIncludePattern.filter
      (fun f => !(env.checkAttrLfs f.filename) && !(lsfFiles.contains f.filename))).map
      (fun f => f.filename)
  { largeFiles := largeFiles
    accidentallyCheckedInLsfFiles := accidentallyCheckedInLsfFiles
    consideredBinaryFiles := consideredBinaryFiles
    inclusionPatternMatchingFiles := inclusionPatternMatchingFiles }

/-- The final `lsfFiles` list (index.ts lines 362-363 and 376): the four
buckets concatenated in order. -/
def flatten (r : ClassificationResult) : List String :=
  r.largeFiles ++ r.accidentallyCheckedInLsfFiles ++ r.consideredBinaryFiles
    ++ r.inclusionPatternMatchingFiles

/-- The observable side effects of the reporting step. -/
structure ReportActions where
  labelAdded : Bool
  commentPosted : Bool
  outputEmitted : Option (List String)
  failed : Bool
  labelRemoved : Bool
deriving DecidableEq, Repr

/-- Embedding of the reporting branch of `run` (index.ts lines 383-423):
when `lsfFiles` is non-empty the label is added and the comment posted, the
list is emitted as the `lfsFiles` output, and the run is marked failed;
when it is empty the run passes and the label is removed exactly when it is
currently present on the pull request. -/
def reportStep (lsfFiles : List String) (labelsOnIssue : List String)
    (labelName : String) : ReportActions :=
  if lsfFiles.length > 0 then
    { labelAdded := true
      commentPosted := true
      outputEmitted := some lsfFiles
      failed := true
      labelRemoved := false }
  else
    { labelAdded := false
      commentPosted := false
      outputEmitted := none
      failed := false
      labelRemoved := labelsOnIssue.contains labelName }

/-- Embedding of `doGrepBasedBinaryCheck` from the first draft variant
(index.ts lines 13-35), returning the updated
`(consideredBinaryFiles, inclusionPatternMatchingFiles)` pair: a successful
probe with non-empty stdout records the file as binary; any probe failure
lands in the catch block, which runs the inclusion-pattern check instead. -/
def doGrepBasedBinaryCheck (grepOutcome : GrepResult) (filename : String)
    (consideredBinaryFiles : List String) (inclusionPatterns : List String)
    (inclusionPatternMatchingFiles : List String)
    (isMatch : String → List String → Bool) : List String × List String :=
  match grepOutcome with
  | GrepResult.success out =>
      if out.length > 0 then
        (consideredBinaryFiles ++ [filename], inclusionPatternMatchingFiles)
      else
        (consideredBinaryFiles, inclusionPatternMatchingFiles)
  | GrepResult.failure _ =>
      (consideredBinaryFiles,
       if inclusionPatterns.length > 0 && isMatch filename inclusionPatterns then
         inclusionPatternMatchingFiles ++ [filename]
       else
         inclusionPatternMatchingFiles)

/-- `micromatch.isMatch` restricted to literal patterns (patterns without
glob metacharacters): a path matches the set exactly when the set contains
the path verbatim, and an empty set matches nothing.  Used to build concrete
environments for counterexamples and witnesses. -/
def litMatch (path : String) (patterns : List String) : Bool :=
  patterns.contains path

/-! ### Concrete environments and files for counterexamples and witnesses -/

/-- Environment with no LFS attributes, tiny blobs, and a text-probe that
exits 1 (grep judged every file text-only). -/
def envPlain : Env :=
  { isMatch := litMatch
    checkAttrLfs := fun _ => false
    getBlobSize := fun _ => some 0
    grep := fun _ => GrepResult.failure 1 }

/-- Environment whose attribute probe reports every path LFS-filtered. -/
def envAttrTrue : Env :=
  { isMatch := litMatch
    checkAttrLfs := fun _ => true
    getBlobSize := fun _ => some 5
    grep := fun _ => GrepResult.failure 1 }

/-- Environment with a 2000-byte blob for every sha. -/
def envBig : Env :=
  { isMatch := litMatch
    checkAttrLfs := fun _ => false
    getBlobSize := fun _ => some 2000
    grep := fun _ => GrepResult.failure 1 }

/-- Environment whose text probe fails with exit code 2
(e.g. the probed path is missing from the working tree). -/
def envGrepExit2 : Env :=
  { isMatch := litMatch
    checkAttrLfs := fun _ => false
    getBlobSize := fun _ => some 5
    grep := fun _ => GrepResult.failure 2 }

/-- Environment whose text probe exits 1 (a genuine "file is text" result),
otherwise identical to `envGrepExit2`. -/
def envGrepExit1 : Env :=
  { isMatch := litMatch
    checkAttrLfs := fun _ => false
    getBlobSize := fun _ => some 5
    grep := fun _ => GrepResult.failure 1 }

def fileABin : PrFile := { filename := "a.bin", sha := "sha-a", patch := none }

def fileATxt : PrFile := { filename := "a.txt", sha := "sha-t", patch := none }

def fileBigZip : PrFile := { filename := "big.zip", sha := "sha-z", patch := none }

def fileModelBin : PrFile :=
  { filename := "model.bin", sha := "sha-m", patch := some ("binary diff suppressed") }

def fileMissing : PrFile :=
  { filename := "missing.bin", sha := "sha-x", patch := none }

/-! ### General helper lemmas -/

lemma toLower_of_isDigit {c : Char} (h : c.isDigit = true) : c.toLower = c := by
  simp only [Char.isDigit, Bool.and_eq_true, decide_eq_true_eq] at h
  have h57 : c.toNat ≤ 57 := h.2
  simp only [Char.toLower]
  rw [if_neg]
  omega

lemma contains_iff_mem {l : List String} {a : String} :
    l.contains a = true ↔ a ∈ l := by
  simp [List.contains, List.elem_iff]

lemma mem_filter_map_iff {α β : Type} {nm : α → β} {p : α → Bool} {l : List α} {b : β} :
    b ∈ (l.filter p).map nm ↔ ∃ a, a ∈ l ∧ p a = true ∧ nm a = b := by
  simp only [List.mem_map, List.mem_filter]
  constructor
  · rintro ⟨a, ⟨ha, hp⟩, hn⟩
    exact ⟨a, ha, hp, hn⟩
  · rintro ⟨a, ha, hp, hn⟩
    exact ⟨a, ⟨ha, hp⟩, hn⟩

/-! ### Structural lemmas about the two file-listing functions -/

lemma enrich_mem_filesWB {env : Env} {excl : List String} {data : List PrFile}
    {f : PrFile} (hf : f ∈ data) (hexcl : env.isMatch f.filename excl = false) :
    enrichFile env f ∈ getPrFilesWithBlobSize env excl data := by
  unfold getPrFilesWithBlobSize
  by_cases h : excl.length > 0
  · simp only [h, if_true, List.mem_map, List.mem_filter]
    exact ⟨f, ⟨hf, by simp [hexcl]⟩, rfl⟩
  · simp only [h, if_false, List.mem_map]
    exact ⟨f, hf, rfl⟩

lemma filesWB_names_sublist (env : Env) (excl : List String) (data : List PrFile) :
    ((getPrFilesWithBlobSize env excl data).map ChangedFile.filename).Sublist
      (data.map PrFile.filename) := by
  unfold getPrFilesWithBlobSize
  by_cases h : excl.length > 0
  · simp only [h, if_true, List.map_map]
    have : (ChangedFile.filename ∘ enrichFile env) = PrFile.filename := rfl
    rw [this]
    exact (List.filter_sublist data).map _
  · simp only [h, if_false, List.map_map]
    have : (ChangedFile.filename ∘ enrichFile env) = PrFile.filename := rfl
    rw [this]

lemma nodup_filesWB_names {env : Env} {excl : List String} {data : List PrFile}
    (hnd : (data.map PrFile.filename).Nodup) :
    ((getPrFilesWithBlobSize env excl data).map ChangedFile.filename).Nodup :=
  (filesWB_names_sublist env excl data).nodup hnd

lemma filesIncl_sublist (env : Env) (incl : List String) (data : List PrFile) :
    (getPrFilesMatchingInclusionPattern env incl data).Sublist data := by
  unfold getPrFilesMatchingInclusionPattern
  by_cases h : incl.length > 0
  · simp only [h, if_true]
    exact List.filter_sublist data
  · simp only [h, if_false]
    exact List.Sublist.refl data

lemma nodup_filesIncl_names {env : Env} {incl : List String} {data : List PrFile}
    (hnd : (data.map PrFile.filename).Nodup) :
    ((getPrFilesMatchingInclusionPattern env incl data).map PrFile.filename).Nodup :=
  ((filesIncl_sublist env incl data).map PrFile.filename).nodup hnd

/-! ### Projection lemmas for `classify` -/

lemma classify_largeFiles (env : Env) (excl incl : List String) (fsl : JsValue)
    (data : List PrFile) :
    (classify env excl incl fsl data).largeFiles =
      ((getPrFilesWithBlobSize env excl data).filter
        (fun f => decide (classifyOne env fsl f = Bucket.oversized))).map
        (fun f => f.filename) := rfl

lemma classify_accidental (env : Env) (excl incl : List String) (fsl : JsValue)
    (data : List PrFile) :
    (classify env excl incl fsl data).accidentallyCheckedInLsfFiles =
      ((getPrFilesWithBlobSize env excl data).filter
        (fun f => decide (classifyOne env fsl f = Bucket.misdeclaredLfs))).map
        (fun f => f.filename) := rfl

lemma classify_binary (env : Env) (excl incl : List String) (fsl : JsValue)
    (data : List PrFile) :
    (classify env excl incl fsl data).consideredBinaryFiles =
      ((getPrFilesWithBlobSize env excl data).filter
        (fun f => decide (classifyOne env fsl f = Bucket.suspectedBinary))).map
        (fun f => f.filename) := rfl

lemma classify_inclusion (env : Env) (excl incl : List String) (fsl : JsValue)
    (data : List PrFile) :
    (classify env excl incl fsl data).inclusionPatternMatchingFiles =
      ((getPrFilesMatchingInclusionPattern env incl data).filter
        (fun f => !(env.checkAttrLfs f.filename) &&
          !(((classify env excl incl fsl data).largeFiles ++
             (classify env excl incl fsl data).accidentallyCheckedInLsfFiles ++
             (classify env excl incl fsl data).consideredBinaryFiles).contains f.filename))).map
        (fun f => f.filename) := rfl

/-! ### Claim C1 -/

/-- C1: counterexample.  The pull request changes the single file `a.bin`,
whose path matches the exclusion pattern list `["a.bin"]` (first conjunct:
the matcher confirms the match).  The claim says such a file lands in no
bucket and is absent from the flattened output; on the code it lands in
`inclusionPatternMatchingFiles` (the patternFlagged bucket) and in the
flattened output, because `getPrFilesMatchingInclusionPattern` never
consults the exclusion patterns. -/
theorem c1_excluded_file_still_pattern_flagged :
    litMatch (PrFile.filename fileABin) [("a.bin")] = true
    ∧ (classify envPlain [("a.bin")] [("a.bin")] (JsValue.num (JsNum.num 1000))
        [fileABin]).inclusionPatternMatchingFiles = [("a.bin")]
    ∧ flatten (classify envPlain [("a.bin")] [("a.bin")] (JsValue.num (JsNum.num 1000))
        [fileABin]) = [("a.bin")] := by
  decide

/-! ### Claim C2 -/

/-- C2: counterexample.  With an EMPTY inclusion-pattern list (the shipped
default) and a single changed file `a.txt` that triggers no other bucket,
the claim says `patternFlagged` stays empty (empty pattern set = feature
disabled); on the code `getPrFilesMatchingInclusionPattern` falls back to
the full changed-file list when the pattern list is empty, so `a.txt` is
added to `patternFlagged` while the first three buckets are empty. -/
theorem c2_empty_inclusion_list_flags_every_file :
    (classify envPlain [] [] (JsValue.num (JsNum.num 1000))
        [fileATxt]).inclusionPatternMatchingFiles = [("a.txt")]
    ∧ (classify envPlain [] [] (JsValue.num (JsNum.num 1000)) [fileATxt]).largeFiles = []
    ∧ (classify envPlain [] [] (JsValue.num (JsNum.num 1000))
        [fileATxt]).accidentallyCheckedInLsfFiles = []
    ∧ (classify envPlain [] [] (JsValue.num (JsNum.num 1000))
        [fileATxt]).consideredBinaryFiles = [] := by
  decide

/-! ### Claim C7 -/

/-- C7: the code conflates probe failures with "file is text".  A text-probe
failure with exit code 2 (path missing / permission / tool error) is
indistinguishable, to the whole classification, from the legitimate exit-1
"file is text-only" result; in particular the file is not recorded as
binary, the run passes, and no error surfaces.  The last conjunct shows the
first draft variant's `doGrepBasedBinaryCheck` likewise ignores the exit
code of a failed probe. -/
theorem c7_probe_failure_treated_as_not_binary :
    classify envGrepExit2 [] [("*.keep")] (JsValue.num (JsNum.num 1000)) [fileMissing] =
      classify envGrepExit1 [] [("*.keep")] (JsValue.num (JsNum.num 1000)) [fileMissing]
    ∧ (classify envGrepExit2 [] [("*.keep")] (JsValue.num (JsNum.num 1000))
        [fileMissing]).consideredBinaryFiles = []
    ∧ (reportStep
        (flatten (classify envGrepExit2 [] [("*.keep")] (JsValue.num (JsNum.num 1000))
          [fileMissing])) [] ("lfs-detected!")).failed = false
    ∧ (∀ (k₁ k₂ : Nat) (fn : String) (cb ip ipm : List String)
         (m : String → List String → Bool),
         doGrepBasedBinaryCheck (GrepResult.failure k₁) fn cb ip ipm m =
           doGrepBasedBinaryCheck (GrepResult.failure k₂) fn cb ip ipm m) := by
  refine ⟨by decide, by decide, by decide, ?_⟩
  intro k₁ k₂ fn cb ip ipm m
  rfl

/-! ### Claim C9 -/

/-- C9: the parser does not reject malformed input.  For the malformed
threshold string `abc` the parser returns the string unchanged (no
InvalidThreshold error exists anywhere in the code), and its numeric
coercion — the value every size comparison uses — is NaN. -/
theorem c9_malformed_threshold_not_rejected :
    getFileSizeLimitBytes ("abc") = JsValue.str ("abc")
    ∧ toNumber (getFileSizeLimitBytes ("abc")) = JsNum.nan := by
  decide

/-! ### Claim C6 -/

/-- C6: for a pull-request run in which all external calls succeed, the run
fails, adds the label and posts the comment exactly when the flattened
flagged list is non-empty, emitting that list as the `lfsFiles` output; when
the list is empty the run passes and removes the label exactly when the
label is currently on the pull request. -/
theorem c6_report_outcome (env : Env) (excl incl : List String) (fsl : JsValue)
    (data : List PrFile) (labelsOnIssue : List String) (labelName : String) :
    ((reportStep (flatten (classify env excl incl fsl data)) labelsOnIssue
        labelName).failed = true ↔ flatten (classify env excl incl fsl data) ≠ [])
    ∧ ((reportStep (flatten (classify env excl incl fsl data)) labelsOnIssue
        labelName).labelAdded = true ↔ flatten (classify env excl incl fsl data) ≠ [])
    ∧ ((reportStep (flatten (classify env excl incl fsl data)) labelsOnIssue
        labelName).commentPosted = true ↔ flatten (classify env excl incl fsl data) ≠ [])
    ∧ (flatten (classify env excl incl fsl data) ≠ [] →
        (reportStep (flatten (classify env excl incl fsl data)) labelsOnIssue
          labelName).outputEmitted = some (flatten (classify env excl incl fsl data)))
    ∧ (flatten (classify env excl incl fsl data) = [] →
        (reportStep (flatten (classify env excl incl fsl data)) labelsOnIssue
            labelName).failed = false
        ∧ ((reportStep (flatten (classify env excl incl fsl data)) labelsOnIssue
            labelName).labelRemoved = true ↔ labelName ∈ labelsOnIssue)) := by
  generalize flatten (classify env excl incl fsl data) = L
  by_cases h : L = []
  · subst h
    simp [reportStep, contains_iff_mem]
  · have hlen : L.length > 0 := by
      cases L with
      | nil => exact absurd rfl h
      | cons a t => simp
    simp [reportStep, hlen, h]

/-- C6 witness: a concrete oversized file makes the flattened list
non-empty, so the run fails, the label is added and the comment posted;
with an empty list (no changed files) and the label present, the run
passes and removes the label. -/
theorem c6_report_outcome_witness :
    (reportStep (flatten (classify envBig [] [("nope")] (JsValue.num (JsNum.num 1000))
        [fileBigZip])) [] ("lfs-detected!")).failed = true
    ∧ (reportStep (flatten (classify envBig [] [("nope")] (JsValue.num (JsNum.num 1000))
        [])) [("lfs-detected!")] ("lfs-detected!")).labelRemoved = true := by
  constructor
  · exact (c6_report_outcome envBig [] [("nope")] (JsValue.num (JsNum.num 1000))
      [fileBigZip] [] ("lfs-detected!")).1.mpr (by decide)
  · exact (((c6_report_outcome envBig [] [("nope")] (JsValue.num (JsNum.num 1000))
      [] [("lfs-detected!")] ("lfs-detected!")).2.2.2.2 (by decide)).2).mpr (by decide)

/-! ### Claim C10 -/

/-- Under a NaN threshold the per-file decision tree never selects the
oversized bucket. -/
lemma classifyOne_nan_ne_oversized (env : Env) (fsl : JsValue) (f : ChangedFile)
    (hnan : toNumber fsl = JsNum.nan) :
    classifyOne env fsl f ≠ Bucket.oversized := by
  unfold classifyOne
  rw [hnan]
  have hcond : (match f.fileblobsize with
      | some s => jsGt s JsNum.nan
      | none => false) = false := by
    cases f.fileblobsize <;> rfl
  rw [hcond]
  simp only [Bool.false_eq_true, if_false]
  by_cases hattr : env.checkAttrLfs f.filename
  · simp only [hattr, if_true]
    by_cases hp : patchContainsPointer f.patch <;> simp [hp]
  · simp only [hattr, Bool.false_eq_true, if_false]
    cases hg : env.grep f.filename with
    | success out => by_cases hlen : out.length > 0 <;> simp [hlen]
    | failure k => simp

/-- C10: the threshold parser is total and silently NaN-propagating: the
comparison against a NaN threshold is false for every size, the malformed
input `abc` indeed converts to NaN, and under any threshold value whose
numeric coercion is NaN the oversized bucket is empty for every environment
and file list (the run continues, no file is ever oversized). -/
theorem c10_nan_threshold_never_oversized :
    (∀ n : Nat, jsGt n JsNum.nan = false)
    ∧ toNumber (getFileSizeLimitBytes ("abc")) = JsNum.nan
    ∧ (∀ (env : Env) (excl incl : List String) (fsl : JsValue) (data : List PrFile),
        toNumber fsl = JsNum.nan →
        (classify env excl incl fsl data).largeFiles = []) := by
  refine ⟨fun n => rfl, by decide, ?_⟩
  intro env excl incl fsl data hnan
  rw [classify_largeFiles]
  have hfilter : (getPrFilesWithBlobSize env excl data).filter
      (fun f => decide (classifyOne env fsl f = Bucket.oversized)) = [] := by
    rw [List.filter_eq_nil_iff]
    intro f _
    simp only [decide_eq_true_eq]
    exact classifyOne_nan_ne_oversized env fsl f hnan
  rw [hfilter]
  rfl

/-- C10 witness: with the malformed threshold `abc`, a one-gigabyte blob is
not placed in the oversized bucket. -/
theorem c10_nan_threshold_never_oversized_witness :
    (classify
      { isMatch := litMatch
        checkAttrLfs := fun _ => false
        getBlobSize := fun _ => some 1073741824
        grep := fun _ => GrepResult.failure 1 }
      [] [("nope")] (getFileSizeLimitBytes ("abc")) [fileBigZip]).largeFiles = [] := by
  exact c10_nan_threshold_never_oversized.2.2
    { isMatch := litMatch
      checkAttrLfs := fun _ => false
      getBlobSize := fun _ => some 1073741824
      grep := fun _ => GrepResult.failure 1 }
    [] [("nope")] (getFileSizeLimitBytes ("abc")) [fileBigZip] (by decide)

/-! ### Characterizations of the per-file decision tree -/

lemma classifyOne_eq (env : Env) (fsl : JsValue) (f : ChangedFile) :
    classifyOne env fsl f =
      if (match f.fileblobsize with
          | some s => jsGt s (toNumber fsl)
          | none => false) then Bucket.oversized
      else if env.checkAttrLfs f.filename then
        if patchContainsPointer f.patch then Bucket.pass else Bucket.misdeclaredLfs
      else if grepJudgesBinary env f.filename then Bucket.suspectedBinary
      else Bucket.pass := by
  unfold classifyOne grepJudgesBinary
  cases hg : env.grep f.filename <;> simp [hg]

lemma branch_ne_oversized (env : Env) (f : ChangedFile) :
    (if env.checkAttrLfs f.filename then
      if patchContainsPointer f.patch then Bucket.pass else Bucket.misdeclaredLfs
     else if grepJudgesBinary env f.filename then Bucket.suspectedBinary
     else Bucket.pass) ≠ Bucket.oversized := by
  by_cases h1 : env.checkAttrLfs f.filename <;>
    by_cases h2 : patchContainsPointer f.patch <;>
      by_cases h3 : grepJudgesBinary env f.filename <;>
        simp [h1, h2, h3]

lemma classifyOne_oversized_iff (env : Env) (fsl : JsValue) (f : ChangedFile) :
    classifyOne env fsl f = Bucket.oversized ↔
      (match f.fileblobsize with
        | some s => jsGt s (toNumber fsl)
        | none => false) = true := by
  rw [classifyOne_eq]
  by_cases h0 : (match f.fileblobsize with
      | some s => jsGt s (toNumber fsl)
      | none => false) = true
  · simp [h0]
  · simp only [h0, if_neg, Bool.not_eq_true] at *
    simp [h0, branch_ne_oversized env f]

lemma classifyOne_misdeclared_iff (env : Env) (fsl : JsValue) (f : ChangedFile) :
    classifyOne env fsl f = Bucket.misdeclaredLfs ↔
      ((match f.fileblobsize with
        | some s => jsGt s (toNumber fsl)
        | none => false) = false
       ∧ env.checkAttrLfs f.filename = true
       ∧ patchContainsPointer f.patch = false) := by
  rw [classifyOne_eq]
  by_cases h0 : (match f.fileblobsize with
      | some s => jsGt s (toNumber fsl)
      | none => false) = true <;>
    by_cases h1 : env.checkAttrLfs f.filename <;>
      by_cases h2 : patchContainsPointer f.patch <;>
        by_cases h3 : grepJudgesBinary env f.filename <;>
          simp [h0, h1, h2, h3]

lemma classifyOne_binary_iff (env : Env) (fsl : JsValue) (f : ChangedFile) :
    classifyOne env fsl f = Bucket.suspectedBinary ↔
      ((match f.fileblobsize with
        | some s => jsGt s (toNumber fsl)
        | none => false) = false
       ∧ env.checkAttrLfs f.filename = false
       ∧ grepJudgesBinary env f.filename = true) := by
  rw [classifyOne_eq]
  by_cases h0 : (match f.fileblobsize with
      | some s => jsGt s (toNumber fsl)
      | none => false) = true <;>
    by_cases h1 : env.checkAttrLfs f.filename <;>
      by_cases h2 : patchContainsPointer f.patch <;>
        by_cases h3 : grepJudgesBinary env f.filename <;>
          simp [h0, h1, h2, h3]

/-! ### Bucket-membership characterizations -/

lemma mem_firstPassBucket_iff {env : Env} {excl : List String} {fsl : JsValue}
    {data : List PrFile} {f : PrFile} (hf : f ∈ data)
    (hnd : (data.map PrFile.filename).Nodup)
    (hexcl : env.isMatch f.filename excl = false) (b : Bucket) :
    f.filename ∈ ((getPrFilesWithBlobSize env excl data).filter
        (fun g => decide (classifyOne env fsl g = b))).map (fun g => g.filename) ↔
      classifyOne env fsl (enrichFile env f) = b := by
  rw [mem_filter_map_iff]
  constructor
  · rintro ⟨g, hg, hp, hname⟩
    have hgf : g = enrichFile env f :=
      List.inj_on_of_nodup_map (nodup_filesWB_names hnd) hg
        (enrich_mem_filesWB hf hexcl) hname
    rw [hgf] at hp
    exact of_decide_eq_true hp
  · intro hc
    exact ⟨enrichFile env f, enrich_mem_filesWB hf hexcl, by simp [hc], rfl⟩

lemma mem_inclusionBucket_iff {env : Env} {excl incl : List String} {fsl : JsValue}
    {data : List PrFile} {name : String} :
    name ∈ (classify env excl incl fsl data).inclusionPatternMatchingFiles ↔
      ∃ g, g ∈ getPrFilesMatchingInclusionPattern env incl data
        ∧ env.checkAttrLfs g.filename = false
        ∧ ((classify env excl incl fsl data).largeFiles ++
           (classify env excl incl fsl data).accidentallyCheckedInLsfFiles ++
           (classify env excl incl fsl data).consideredBinaryFiles).contains g.filename
            = false
        ∧ g.filename = name := by
  rw [classify_inclusion, mem_filter_map_iff]
  constructor
  · rintro ⟨g, hg, hp, hn⟩
    simp only [Bool.and_eq_true, Bool.not_eq_true'] at hp
    exact ⟨g, hg, hp.1, hp.2, hn⟩
  · rintro ⟨g, hg, h1, h2, hn⟩
    exact ⟨g, hg, by rw [h1, h2]; rfl, hn⟩

/-! ### Claim C3 -/

/-- C3: a changed file (not excluded) with known blob size at most the
threshold whose attribute probe reports the LFS filter lands in
`accidentallyCheckedInLsfFiles` (the misdeclaredLfs bucket) exactly when its
patch does not contain the pointer signature (an absent patch counts as not
containing it); when the signature is present the file lands in no bucket at
all. -/
theorem c3_misdeclared_iff_pointer_missing
    (env : Env) (excl incl : List String) (t : Nat) (data : List PrFile)
    (f : PrFile) (s : Nat)
    (hf : f ∈ data) (hnd : (data.map PrFile.filename).Nodup)
    (hexcl : env.isMatch f.filename excl = false)
    (hsize : env.getBlobSize f.sha = some s) (hle : s ≤ t)
    (hattr : env.checkAttrLfs f.filename = true) :
    (f.filename ∈ (classify env excl incl (JsValue.num (JsNum.num t))
        data).accidentallyCheckedInLsfFiles
      ↔ patchContainsPointer f.patch = false)
    ∧ (patchContainsPointer f.patch = true →
        f.filename ∉ flatten (classify env excl incl (JsValue.num (JsNum.num t)) data)) := by
  have hcond : (match env.getBlobSize f.sha with
      | some u => jsGt u (toNumber (JsValue.num (JsNum.num t)))
      | none => false) = false := by
    rw [hsize]
    simp only [toNumber, jsGt]
    exact decide_eq_false (by omega)
  constructor
  · rw [classify_accidental, mem_firstPassBucket_iff hf hnd hexcl,
      classifyOne_misdeclared_iff]
    simp [enrichFile, hcond, hattr]
  · intro hp
    simp only [flatten, List.mem_append, not_or]
    refine ⟨⟨⟨?_, ?_⟩, ?_⟩, ?_⟩
    · rw [classify_largeFiles, mem_firstPassBucket_iff hf hnd hexcl,
        classifyOne_oversized_iff]
      simp [enrichFile, hcond]
    · rw [classify_accidental, mem_firstPassBucket_iff hf hnd hexcl,
        classifyOne_misdeclared_iff]
      simp [enrichFile, hp]
    · rw [classify_binary, mem_firstPassBucket_iff hf hnd hexcl,
        classifyOne_binary_iff]
      simp [enrichFile, hattr]
    · rw [mem_inclusionBucket_iff]
      rintro ⟨g, hg, hgattr, hgcont, hname⟩
      rw [hname, hattr] at hgattr
      exact absurd hgattr (by simp)

/-- C3 witness: `model.bin` is LFS-filtered, its blob is 5 bytes (below the
1000-byte threshold), and its patch text lacks the pointer signature, so it
is placed in the misdeclaredLfs bucket. -/
theorem c3_misdeclared_iff_pointer_missing_witness :
    (fileModelBin.filename) ∈ (classify envAttrTrue [] [("nope")]
      (JsValue.num (JsNum.num 1000)) [fileModelBin]).accidentallyCheckedInLsfFiles := by
  have h := c3_misdeclared_iff_pointer_missing envAttrTrue [] [("nope")] 1000
    [fileModelBin] fileModelBin 5 (by decide) (by decide) (by decide) (by decide)
    (by decide) (by decide)
  exact h.1.mpr (by decide)

/-! ### Claim C4 -/

/-- C4: a changed file (not excluded) is in the oversized bucket exactly
when its blob size is known and strictly exceeds the threshold; an oversized
file is in no other bucket; and a file with unknown blob size never enters
the oversized bucket yet still undergoes the LFS-attribute check and the
binary-content probe. -/
theorem c4_oversized_characterization
    (env : Env) (excl incl : List String) (t : Nat) (data : List PrFile) (f : PrFile)
    (hf : f ∈ data) (hnd : (data.map PrFile.filename).Nodup)
    (hexcl : env.isMatch f.filename excl = false) :
    (f.filename ∈ (classify env excl incl (JsValue.num (JsNum.num t)) data).largeFiles
       ↔ ∃ s, env.getBlobSize f.sha = some s ∧ t < s)
    ∧ (f.filename ∈ (classify env excl incl (JsValue.num (JsNum.num t)) data).largeFiles →
         f.filename ∉ (classify env excl incl (JsValue.num (JsNum.num t))
            data).accidentallyCheckedInLsfFiles
         ∧ f.filename ∉ (classify env excl incl (JsValue.num (JsNum.num t))
            data).consideredBinaryFiles
         ∧ f.filename ∉ (classify env excl incl (JsValue.num (JsNum.num t))
            data).inclusionPatternMatchingFiles)
    ∧ (env.getBlobSize f.sha = none →
         f.filename ∉ (classify env excl incl (JsValue.num (JsNum.num t)) data).largeFiles
         ∧ (f.filename ∈ (classify env excl incl (JsValue.num (JsNum.num t))
              data).accidentallyCheckedInLsfFiles ↔
              (env.checkAttrLfs f.filename = true ∧ patchContainsPointer f.patch = false))
         ∧ (f.filename ∈ (classify env excl incl (JsValue.num (JsNum.num t))
              data).consideredBinaryFiles ↔
              (env.checkAttrLfs f.filename = false
               ∧ grepJudgesBinary env f.filename = true))) := by
  refine ⟨?_, ?_, ?_⟩
  · rw [classify_largeFiles, mem_firstPassBucket_iff hf hnd hexcl,
      classifyOne_oversized_iff]
    cases hs : env.getBlobSize f.sha with
    | some s => simp [enrichFile, hs, toNumber, jsGt]
    | none => simp [enrichFile, hs]
  · intro hmem
    have hov : classifyOne env (JsValue.num (JsNum.num t)) (enrichFile env f)
        = Bucket.oversized := by
      rw [classify_largeFiles, mem_firstPassBucket_iff hf hnd hexcl] at hmem
      exact hmem
    refine ⟨?_, ?_, ?_⟩
    · intro hacc
      rw [classify_accidental, mem_firstPassBucket_iff hf hnd hexcl] at hacc
      exact Bucket.noConfusion (hacc.symm.trans hov)
    · intro hbin
      rw [classify_binary, mem_firstPassBucket_iff hf hnd hexcl] at hbin
      exact Bucket.noConfusion (hbin.symm.trans hov)
    · intro hincl
      rw [mem_inclusionBucket_iff] at hincl
      obtain ⟨g, hg, hgattr, hgcont, hname⟩ := hincl
      have hin3 : g.filename ∈
          (classify env excl incl (JsValue.num (JsNum.num t)) data).largeFiles ++
          (classify env excl incl (JsValue.num (JsNum.num t))
            data).accidentallyCheckedInLsfFiles ++
          (classify env excl incl (JsValue.num (JsNum.num t))
            data).consideredBinaryFiles := by
        rw [hname]
        exact List.mem_append_left _ (List.mem_append_left _ hmem)
      rw [← contains_iff_mem] at hin3
      rw [hgcont] at hin3
      exact absurd hin3 (by simp)
  · intro hnone
    refine ⟨?_, ?_, ?_⟩
    · rw [classify_largeFiles, mem_firstPassBucket_iff hf hnd hexcl,
        classifyOne_oversized_iff]
      simp [enrichFile, hnone]
    · rw [classify_accidental, mem_firstPassBucket_iff hf hnd hexcl,
        classifyOne_misdeclared_iff]
      simp [enrichFile, hnone]
    · rw [classify_binary, mem_firstPassBucket_iff hf hnd hexcl,
        classifyOne_binary_iff]
      simp [enrichFile, hnone]

/-- C4 witness: `big.zip` has a 2000-byte blob against a 1000-byte
threshold, so it is placed in the oversized bucket and in no other
bucket. -/
theorem c4_oversized_characterization_witness :
    (fileBigZip.filename) ∈ (classify envBig [] [("nope")]
        (JsValue.num (JsNum.num 1000)) [fileBigZip]).largeFiles
    ∧ ((fileBigZip.filename) ∉ (classify envBig [] [("nope")]
          (JsValue.num (JsNum.num 1000)) [fileBigZip]).accidentallyCheckedInLsfFiles
       ∧ (fileBigZip.filename) ∉ (classify envBig [] [("nope")]
          (JsValue.num (JsNum.num 1000)) [fileBigZip]).consideredBinaryFiles
       ∧ (fileBigZip.filename) ∉ (classify envBig [] [("nope")]
          (JsValue.num (JsNum.num 1000)) [fileBigZip]).inclusionPatternMatchingFiles) := by
  have h := c4_oversized_characterization envBig [] [("nope")] 1000 [fileBigZip]
    fileBigZip (by decide) (by decide) (by decide)
  have hm := h.1.mpr ⟨2000, by decide, by decide⟩
  exact ⟨hm, h.2.1 hm⟩

/-! ### Claim C5 -/

/-- Two different first-pass buckets never share a path when the input
paths are pairwise distinct: each file is sent to at most one bucket, and
distinct files have distinct names. -/
lemma disjoint_firstPassBuckets {env : Env} {excl : List String} {fsl : JsValue}
    {data : List PrFile} (hnd : (data.map PrFile.filename).Nodup)
    {b₁ b₂ : Bucket} (hne : b₁ ≠ b₂) :
    List.Disjoint
      (((getPrFilesWithBlobSize env excl data).filter
        (fun g => decide (classifyOne env fsl g = b₁))).map (fun g => g.filename))
      (((getPrFilesWithBlobSize env excl data).filter
        (fun g => decide (classifyOne env fsl g = b₂))).map (fun g => g.filename)) := by
  intro name h1 h2
  obtain ⟨g₁, hg₁, hp₁, hn₁⟩ := mem_filter_map_iff.mp h1
  obtain ⟨g₂, hg₂, hp₂, hn₂⟩ := mem_filter_map_iff.mp h2
  have heq : g₁ = g₂ :=
    List.inj_on_of_nodup_map (nodup_filesWB_names hnd) hg₁ hg₂ (hn₁.trans hn₂.symm)
  have e1 := of_decide_eq_true hp₁
  have e2 := of_decide_eq_true hp₂
  rw [heq] at e1
  exact hne (e1.symm.trans e2)

/-- A path in the pattern-flagged bucket passed the `!lsfFiles.includes`
guard, so it is absent from each of the first three buckets. -/
lemma not_mem_lsf3_of_mem_inclusion {env : Env} {excl incl : List String}
    {fsl : JsValue} {data : List PrFile} {name : String}
    (hd : name ∈ (classify env excl incl fsl data).inclusionPatternMatchingFiles) :
    name ∉ (classify env excl incl fsl data).largeFiles
    ∧ name ∉ (classify env excl incl fsl data).accidentallyCheckedInLsfFiles
    ∧ name ∉ (classify env excl incl fsl data).consideredBinaryFiles := by
  obtain ⟨g, hg, hgattr, hgcont, hname⟩ := mem_inclusionBucket_iff.mp hd
  subst hname
  have hnotin : g.filename ∉
      ((classify env excl incl fsl data).largeFiles ++
       (classify env excl incl fsl data).accidentallyCheckedInLsfFiles ++
       (classify env excl incl fsl data).consideredBinaryFiles) := by
    intro hmem
    rw [← contains_iff_mem] at hmem
    rw [hgcont] at hmem
    exact absurd hmem (by simp)
  refine ⟨fun h => hnotin ?_, fun h => hnotin ?_, fun h => hnotin ?_⟩ <;>
    simp [List.mem_append, h]

/-- C5: for a pull-request file list with pairwise-distinct paths, the
flattened output is the concatenation of the four buckets in the order
oversized, misdeclaredLfs, suspectedBinary, patternFlagged (first conjunct,
the order in which `run` concatenates them), and it contains no duplicate
path across all four buckets combined (second conjunct). -/
theorem c5_flatten_order_and_nodup (env : Env) (excl incl : List String)
    (fsl : JsValue) (data : List PrFile)
    (hnd : (data.map PrFile.filename).Nodup) :
    flatten (classify env excl incl fsl data) =
      (classify env excl incl fsl data).largeFiles ++
      (classify env excl incl fsl data).accidentallyCheckedInLsfFiles ++
      (classify env excl incl fsl data).consideredBinaryFiles ++
      (classify env excl incl fsl data).inclusionPatternMatchingFiles
    ∧ (flatten (classify env excl incl fsl data)).Nodup := by
  refine ⟨rfl, ?_⟩
  have hA : (classify env excl incl fsl data).largeFiles.Nodup := by
    rw [classify_largeFiles]
    exact ((List.filter_sublist _).map _).nodup (nodup_filesWB_names hnd)
  have hB : (classify env excl incl fsl data).accidentallyCheckedInLsfFiles.Nodup := by
    rw [classify_accidental]
    exact ((List.filter_sublist _).map _).nodup (nodup_filesWB_names hnd)
  have hC : (classify env excl incl fsl data).consideredBinaryFiles.Nodup := by
    rw [classify_binary]
    exact ((List.filter_sublist _).map _).nodup (nodup_filesWB_names hnd)
  have hD : (classify env excl incl fsl data).inclusionPatternMatchingFiles.Nodup := by
    rw [classify_inclusion]
    exact ((List.filter_sublist _).map _).nodup (nodup_filesIncl_names hnd)
  have hAB : (classify env excl incl fsl data).largeFiles.Disjoint
      (classify env excl incl fsl data).accidentallyCheckedInLsfFiles := by
    rw [classify_largeFiles, classify_accidental]
    exact disjoint_firstPassBuckets hnd (by simp)
  have hAC : (classify env excl incl fsl data).largeFiles.Disjoint
      (classify env excl incl fsl data).consideredBinaryFiles := by
    rw [classify_largeFiles, classify_binary]
    exact disjoint_firstPassBuckets hnd (by simp)
  have hBC : (classify env excl incl fsl data).accidentallyCheckedInLsfFiles.Disjoint
      (classify env excl incl fsl data).consideredBinaryFiles := by
    rw [classify_accidental, classify_binary]
    exact disjoint_firstPassBuckets hnd (by simp)
  have hAD : (classify env excl incl fsl data).largeFiles.Disjoint
      (classify env excl incl fsl data).inclusionPatternMatchingFiles := by
    intro name h1 h2
    exact (not_mem_lsf3_of_mem_inclusion h2).1 h1
  have hBD : (classify env excl incl fsl data).accidentallyCheckedInLsfFiles.Disjoint
      (classify env excl incl fsl data).inclusionPatternMatchingFiles := by
    intro name h1 h2
    exact (not_mem_lsf3_of_mem_inclusion h2).2.1 h1
  have hCD : (classify env excl incl fsl data).consideredBinaryFiles.Disjoint
      (classify env excl incl fsl data).inclusionPatternMatchingFiles := by
    intro name h1 h2
    exact (not_mem_lsf3_of_mem_inclusion h2).2.2 h1
  show ((classify env excl incl fsl data).largeFiles ++
      (classify env excl incl fsl data).accidentallyCheckedInLsfFiles ++
      (classify env excl incl fsl data).consideredBinaryFiles ++
      (classify env excl incl fsl data).inclusionPatternMatchingFiles).Nodup
  simp only [List.nodup_append, List.disjoint_append_left, List.disjoint_append_right]
  exact ⟨⟨⟨hA, hB, hAB⟩, hC, hAC, hBC⟩, hD, ⟨hAD, hBD⟩, hCD⟩

/-- C5 witness: a concrete two-file pull request (one oversized file, one
misdeclared LFS file) has pairwise-distinct paths and a duplicate-free
flattened output. -/
theorem c5_flatten_order_and_nodup_witness :
    (flatten (classify envBig [] [("nope")] (JsValue.num (JsNum.num 1000))
      [fileBigZip, fileModelBin])).Nodup :=
  (c5_flatten_order_and_nodup envBig [] [("nope")] (JsValue.num (JsNum.num 1000))
    [fileBigZip, fileModelBin] (by decide)).2

/-! ### Claim C8 -/

lemma jsNumber_digits {ds : List Char} (h1 : ds ≠ [])
    (h2 : ds.all Char.isDigit = true) :
    jsNumber (String.mk ds) = JsNum.num (decimalVal ds) := by
  simp [jsNumber, h1, h2]

lemma gFSLB_kb {ds : List Char} {c₁ c₂ : Char} (h1 : ds ≠ [])
    (h2 : ds.all Char.isDigit = true) (hk : c₁.toLower = 'k') (hb : c₂.toLower = 'b') :
    getFileSizeLimitBytes (String.mk (ds ++ [c₁, c₂])) =
      JsValue.num (JsNum.num (decimalVal ds * 1024)) := by
  have hlen : (ds ++ [c₁, c₂]).length - 2 = ds.length := by simp
  have hdrop : (((String.mk (ds ++ [c₁, c₂])).data.drop
      ((String.mk (ds ++ [c₁, c₂])).data.length - 2)).map Char.toLower) = ['k', 'b'] := by
    show ((ds ++ [c₁, c₂]).drop ((ds ++ [c₁, c₂]).length - 2)).map Char.toLower = _
    rw [hlen, List.drop_left]
    simp [hk, hb]
  have htake : (String.mk (ds ++ [c₁, c₂])).data.take
      ((String.mk (ds ++ [c₁, c₂])).data.length - 2) = ds := by
    show (ds ++ [c₁, c₂]).take ((ds ++ [c₁, c₂]).length - 2) = ds
    rw [hlen]
    exact List.take_left ds [c₁, c₂]
  simp only [getFileSizeLimitBytes]
  rw [hdrop, htake, if_pos rfl, jsNumber_digits h1 h2]
  rfl

lemma gFSLB_mb {ds : List Char} {c₁ c₂ : Char} (h1 : ds ≠ [])
    (h2 : ds.all Char.isDigit = true) (hm : c₁.toLower = 'm') (hb : c₂.toLower = 'b') :
    getFileSizeLimitBytes (String.mk (ds ++ [c₁, c₂])) =
      JsValue.num (JsNum.num (decimalVal ds * (1024 * 1024))) := by
  have hlen : (ds ++ [c₁, c₂]).length - 2 = ds.length := by simp
  have hdrop : (((String.mk (ds ++ [c₁, c₂])).data.drop
      ((String.mk (ds ++ [c₁, c₂])).data.length - 2)).map Char.toLower) = ['m', 'b'] := by
    show ((ds ++ [c₁, c₂]).drop ((ds ++ [c₁, c₂]).length - 2)).map Char.toLower = _
    rw [hlen, List.drop_left]
    simp [hm, hb]
  have htake : (String.mk (ds ++ [c₁, c₂])).data.take
      ((String.mk (ds ++ [c₁, c₂])).data.length - 2) = ds := by
    show (ds ++ [c₁, c₂]).take ((ds ++ [c₁, c₂]).length - 2) = ds
    rw [hlen]
    exact List.take_left ds [c₁, c₂]
  simp only [getFileSizeLimitBytes]
  rw [hdrop, htake, if_neg (by decide), if_pos rfl, jsNumber_digits h1 h2]
  rfl

lemma gFSLB_gb {ds : List Char} {c₁ c₂ : Char} (h1 : ds ≠ [])
    (h2 : ds.all Char.isDigit = true) (hg : c₁.toLower = 'g') (hb : c₂.toLower = 'b') :
    getFileSizeLimitBytes (String.mk (ds ++ [c₁, c₂])) =
      JsValue.num (JsNum.num (decimalVal ds * (1024 * 1024 * 1024))) := by
  have hlen : (ds ++ [c₁, c₂]).length - 2 = ds.length := by simp
  have hdrop : (((String.mk (ds ++ [c₁, c₂])).data.drop
      ((String.mk (ds ++ [c₁, c₂])).data.length - 2)).map Char.toLower) = ['g', 'b'] := by
    show ((ds ++ [c₁, c₂]).drop ((ds ++ [c₁, c₂]).length - 2)).map Char.toLower = _
    rw [hlen, List.drop_left]
    simp [hg, hb]
  have htake : (String.mk (ds ++ [c₁, c₂])).data.take
      ((String.mk (ds ++ [c₁, c₂])).data.length - 2) = ds := by
    show (ds ++ [c₁, c₂]).take ((ds ++ [c₁, c₂]).length - 2) = ds
    rw [hlen]
    exact List.take_left ds [c₁, c₂]
  simp only [getFileSizeLimitBytes]
  rw [hdrop, htake, if_neg (by decide), if_neg (by decide), if_pos rfl,
    jsNumber_digits h1 h2]
  rfl

lemma gFSLB_bare {ds : List Char} (h2 : ds.all Char.isDigit = true) :
    getFileSizeLimitBytes (String.mk ds) = JsValue.str (String.mk ds) := by
  have hsub : ∀ c ∈ ds.drop (ds.length - 2), c.isDigit = true := fun c hc =>
    (List.all_eq_true.mp h2) c (List.drop_subset _ _ hc)
  have hmap : (ds.drop (ds.length - 2)).map Char.toLower = ds.drop (ds.length - 2) := by
    rw [List.map_congr_left (fun c hc => toLower_of_isDigit (hsub c hc))]
    simp
  have hne : ∀ (a b : Char), a.isDigit = false → ds.drop (ds.length - 2) ≠ [a, b] := by
    intro a b hnd h
    have ha : a ∈ ds.drop (ds.length - 2) := by rw [h]; simp
    have := hsub _ ha
    rw [hnd] at this
    exact absurd this (by simp)
  have hsecond : secondCharIsB (ds.drop (ds.length - 2)) = false := by
    cases hq : ds.drop (ds.length - 2) with
    | nil => rfl
    | cons a t =>
      cases t with
      | nil => rfl
      | cons b t2 =>
        cases t2 with
        | cons x t3 => rfl
        | nil =>
          have hbmem : b ∈ ds.drop (ds.length - 2) := by rw [hq]; simp
          have hbdig := hsub _ hbmem
          simp only [secondCharIsB]
          rw [beq_eq_false_iff_ne]
          intro heq
          rw [heq] at hbdig
          exact absurd hbdig (by decide)
  simp only [getFileSizeLimitBytes]
  show (if ((ds.drop (ds.length - 2)).map Char.toLower) = ['k', 'b'] then _
    else if ((ds.drop (ds.length - 2)).map Char.toLower) = ['m', 'b'] then _
    else if ((ds.drop (ds.length - 2)).map Char.toLower) = ['g', 'b'] then _
    else if secondCharIsB ((ds.drop (ds.length - 2)).map Char.toLower) then _
    else JsValue.str (String.mk ds)) = JsValue.str (String.mk ds)
  rw [hmap, if_neg (hne 'k' 'b' (by decide)), if_neg (hne 'm' 'b' (by decide)),
    if_neg (hne 'g' 'b' (by decide))]
  rw [hsecond]
  simp

/-- C8: the threshold parser maps a decimal-digit string followed by a
case-insensitive `kb`/`mb`/`gb` suffix to the denoted number times 1024,
1024², or 1024³ respectively, and maps a bare decimal-digit string to the
denoted integer unchanged; in particular it maps `10mb` to 10485760 and
`500` to 500.  (The numeric value is read off through `toNumber`, the
coercion the size comparison applies to the parser's result.) -/
theorem c8_threshold_parser_units :
    (∀ (ds : List Char) (c₁ c₂ : Char), ds ≠ [] → ds.all Char.isDigit = true →
      c₁.toLower = 'k' → c₂.toLower = 'b' →
      toNumber (getFileSizeLimitBytes (String.mk (ds ++ [c₁, c₂]))) =
        JsNum.num (decimalVal ds * 1024))
    ∧ (∀ (ds : List Char) (c₁ c₂ : Char), ds ≠ [] → ds.all Char.isDigit = true →
      c₁.toLower = 'm' → c₂.toLower = 'b' →
      toNumber (getFileSizeLimitBytes (String.mk (ds ++ [c₁, c₂]))) =
        JsNum.num (decimalVal ds * (1024 * 1024)))
    ∧ (∀ (ds : List Char) (c₁ c₂ : Char), ds ≠ [] → ds.all Char.isDigit = true →
      c₁.toLower = 'g' → c₂.toLower = 'b' →
      toNumber (getFileSizeLimitBytes (String.mk (ds ++ [c₁, c₂]))) =
        JsNum.num (decimalVal ds * (1024 * 1024 * 1024)))
    ∧ (∀ ds : List Char, ds ≠ [] → ds.all Char.isDigit = true →
      toNumber (getFileSizeLimitBytes (String.mk ds)) = JsNum.num (decimalVal ds))
    ∧ toNumber (getFileSizeLimitBytes ("10mb")) = JsNum.num 10485760
    ∧ toNumber (getFileSizeLimitBytes ("500")) = JsNum.num 500 := by
  refine ⟨?_, ?_, ?_, ?_, by decide, by decide⟩
  · intro ds c₁ c₂ h1 h2 hk hb
    rw [gFSLB_kb h1 h2 hk hb]
    rfl
  · intro ds c₁ c₂ h1 h2 hm hb
    rw [gFSLB_mb h1 h2 hm hb]
    rfl
  · intro ds c₁ c₂ h1 h2 hg hb
    rw [gFSLB_gb h1 h2 hg hb]
    rfl
  · intro ds h1 h2
    rw [gFSLB_bare h2]
    show jsNumber (String.mk ds) = JsNum.num (decimalVal ds)
    exact jsNumber_digits h1 h2

/-- C8 witness: the upper-case suffix `KB` on the digit string `10` parses
to 10240 bytes, by the kb clause of the parser theorem. -/
theorem c8_threshold_parser_units_witness :
    toNumber (getFileSizeLimitBytes (String.mk (['1', '0'] ++ ['K', 'B']))) =
      JsNum.num 10240 := by
  have h := c8_threshold_parser_units.1 ['1', '0'] 'K' 'B' (by decide) (by decide)
    (by decide) (by decide)
  exact h.trans (by decide)
